import Mathlib

/-!
Verification development for the movie-orchestrator-agent repository.

We shallowly embed the orchestration core (step dispatcher, workflow
initializer, balance guard, task validators, delegation callback and
fan-out/join handlers) as pure Lean functions over an explicit oracle
(`World`) describing the responses of the external Nevermined payments
store.  Every external call a handler performs is recorded as an `Event`
in an output trace, so frame properties ("no step mutation") and
counting properties ("exactly one balance check") are statements about
the trace.  Asynchronous promise resolution is modelled by an explicit
`PromiseState` with JavaScript's one-shot resolve/reject semantics.
-/

/-- Minimal model of a JavaScript/JSON value as it flows through the
orchestrator (step outputs, artifacts, object payloads).  `undef` models
the JavaScript `undefined` value (e.g. a missing `length` property). -/
inductive Js where
  | str : String → Js
  | num : Int → Js
  | arr : List Js → Js
  | obj : List (String × Js) → Js
  | nullv : Js
  | undef : Js
deriving Repr

/-- JavaScript truthiness of the values we model: `null`, `undefined`,
`""` and `0` are falsy; arrays and objects are always truthy. -/
def jsFalsy : Js → Bool
  | Js.nullv => true
  | Js.undef => true
  | Js.str s => s = ""
  | Js.num n => n = 0
  | Js.arr _ => false
  | Js.obj _ => false

/-- Model of the JavaScript `a || b` defaulting idiom used by the
validators (`task.output || "Error during task execution."`). -/
def jsOr (a b : Js) : Js := if jsFalsy a then b else a

/-- Model of the JavaScript comparison `b < r` where `b` is a number and
`r` may be `undefined` (as in `balanceResult.balance < undefined`, which
evaluates to `false` because the coercion yields NaN). -/
def jsLt (b : Int) (r : Js) : Bool :=
  match r with
  | Js.num n => b < n
  | _ => false

/-- Model of the JavaScript property read `v.length`: the length of an
array or string, the `"length"` property of a plain object if it has
one, and `undefined` otherwise. -/
def jsLengthProp : Js → Js
  | Js.arr l => Js.num l.length
  | Js.str s => Js.num s.length
  | Js.obj entries =>
      (((entries.find? (fun p => p.1 = "length")).map Prod.snd).getD Js.undef)
  | _ => Js.undef

/-- Property lookup on a modelled JavaScript object. -/
def jsProp (entries : List (String × Js)) (k : String) : Js :=
  (((entries.find? (fun p => p.1 = k)).map Prod.snd).getD Js.undef)

/-- Model of the JavaScript object spread-and-set `\x7b ...o, k: v \x7d`:
if `k` is already a property it is overwritten in place, otherwise it is
appended in insertion order. -/
def setProp (entries : List (String × Js)) (k : String) (v : Js) :
    List (String × Js) :=
  if entries.any (fun p => p.1 = k) then
    entries.map (fun p => if p.1 = k then (k, v) else p)
  else entries ++ [(k, v)]

/-- Step record as read from and written to the Nevermined step store
(the fields the orchestrator touches).  `step_status` is one of
"Pending", "Completed", "Failed" (`AgentExecutionStatus`). -/
structure Step where
  step_id : String
  task_id : String
  did : String
  name : String
  predecessor : Option String
  is_last : Bool
  step_status : String
  input_query : String
  input_artifacts : Option String
  output : Js
  output_artifacts : Js
deriving Repr

/-- Shape of the successor-step records created by `handleInitStep`
(only these five fields appear in the created objects). -/
structure NewStep where
  step_id : String
  task_id : String
  predecessor : String
  name : String
  is_last : Bool
deriving Repr, DecidableEq

/-- Remote task record as returned by `getTaskWithSteps`
(`taskResult.data.task`). -/
structure RemoteTask where
  task_status : String
  output : Js
  output_artifacts : Js
deriving Repr

/-- Parsed notification payload delivered to a delegation callback
(`JSON.parse(data)` inside the `createTask` callback).  A payload
without a `task_status` field parses to `none`. -/
structure TaskLog where
  task_status : Option String
  task_id : String
  message : String
deriving Repr

/-- External calls performed by the orchestration core, recorded in
order in a trace.  `balanceCheck` records one invocation of the balance
guard's `getPlanBalance` read together with the `requiredCredits`
argument the guard was called with. -/
inductive Event where
  | getStepE : String → Event
  | taskLog : String → String → String → Event
  | warn : String → Event
  | infoLog : String → Event
  | infoVal : Js → Event
  | updateStep : String → Step → Event
  | createSteps : String → String → List NewStep → Event
  | balanceCheck : String → Js → Event
  | orderPlan : String → Event
  | getAccessConfig : String → Event
  | createTask : String → Js → String → Event
  | getTaskWithSteps : String → String → Event
deriving Repr

/-- Responses of the external collaborators (step store, payment plan,
remote agents), supplied as an oracle to each modelled function. -/
structure World where
  getStep : String → Step
  balanceOf : String → Int
  orderOk : String → Bool
  createStepsStatus : Nat
  createStepsData : String
  updateStepStatus : Nat
  updateStepData : String
  createTaskStatus : Js → Nat
  createTaskData : Js → String
  taskOf : String → String → RemoteTask
  fresh : Nat → String

/- Environment-supplied agent and plan identifiers (opaque strings). -/

def SCRIPT_GENERATOR_DID : String := "did:nv:script-generator"
def CHARACTER_EXTRACTOR_DID : String := "did:nv:character-extractor"
def THIS_PLAN_DID : String := "did:nv:this-plan"
def IMAGE_GENERATOR_PLAN_DID : String := "did:nv:image-generator-plan"
def IMAGE_GENERATOR_DID : String := "did:nv:image-generator"
def PLAN_DID : String := "did:nv:plan"
def VIDEO_GENERATOR_PLAN_DID : String := "did:nv:video-generator-plan"
def VIDEO_GENERATOR_DID : String := "did:nv:video-generator"

/-- Records written to the step store (`updateStep` calls) in a trace. -/
def updateRecords : List Event → List Step
  | [] => []
  | Event.updateStep _ r :: rest => r :: updateRecords rest
  | _ :: rest => updateRecords rest

/-- Count of step-store mutations (`updateStep` or `createSteps`) in a
trace; "no step mutation" is `stepMutations tr = 0`. -/
def stepMutations : List Event → Nat
  | [] => 0
  | Event.updateStep _ _ :: rest => stepMutations rest + 1
  | Event.createSteps _ _ _ :: rest => stepMutations rest + 1
  | _ :: rest => stepMutations rest

/-- Count of balance-guard invocations in a trace. -/
def balanceChecks : List Event → Nat
  | [] => 0
  | Event.balanceCheck _ _ :: rest => balanceChecks rest + 1
  | _ :: rest => balanceChecks rest

/-- Count of top-up attempts (`orderPlan` calls) in a trace. -/
def orderPlanCalls : List Event → Nat
  | [] => 0
  | Event.orderPlan _ :: rest => orderPlanCalls rest + 1
  | _ :: rest => orderPlanCalls rest

/-- Count of remote-task creations (`createTask` calls) in a trace. -/
def createTaskCalls : List Event → Nat
  | [] => 0
  | Event.createTask _ _ _ :: rest => createTaskCalls rest + 1
  | _ :: rest => createTaskCalls rest

/-- Count of `createSteps` requests in a trace. -/
def createStepsCalls : List Event → Nat
  | [] => 0
  | Event.createSteps _ _ _ :: rest => createStepsCalls rest + 1
  | _ :: rest => createStepsCalls rest

/-- Warnings logged in a trace. -/
def warningsOf : List Event → List String
  | [] => []
  | Event.warn m :: rest => m :: warningsOf rest
  | _ :: rest => warningsOf rest

/-- Balance guard `ensureSufficientBalance(planDid, step, payments,
balance)` from src/steps/taskValidation.ts (lines 173-213): reads the
plan balance once; on shortfall attempts exactly one `orderPlan`; if the
order fails it logs, writes the step Failed with an explanatory output
and returns false; otherwise returns true without re-reading the
balance.  The three-argument copies of this function (lines 102-132) are
this definition applied at `required = Js.num 1`. -/
def ensureSufficientBalance (planDid : String) (step : Step)
    (required : Js) (w : World) : Bool × List Event :=
  let ev0 := [Event.balanceCheck planDid required]
  if jsLt (w.balanceOf planDid) required then
    let ev1 := ev0 ++ [Event.orderPlan planDid]
    if w.orderOk planDid then (true, ev1)
    else
      (false,
        ev1 ++
          [Event.taskLog step.task_id "error"
              ("Failed to order credits for plan " ++ planDid ++ "."),
            Event.updateStep step.did
              { step with
                step_status := "Failed",
                output :=
                  Js.str "Insufficient balance and failed to order credits." }])
  else (true, ev0)

/-- Handlers the image-variant dispatcher routes to.  `processSteps`
only selects and invokes a handler; the dispatcher-level claims hold for
every handler behaviour, so the handlers are parameters here. -/
structure HandlersI where
  hInit : Step → List Event
  hAgent : Step → String → String → String → List Event
  hImages : Step → List Event

/-- Handlers the video-variant dispatcher routes to. -/
structure HandlersV where
  hInit : Step → List Event
  hScript : Step → List Event
  hVideo : Step → List Event

/-- Step dispatcher `processSteps` from src/steps/stepHandlers.ts (image
variant, lines 24-75): fetches the step named by the event, logs it,
skips any step whose `step_status` is not Pending (warning only), and
otherwise routes by `step.name` through the switch; an unrecognized name
is a warning-only no-op.  The JavaScript switch is strict string
equality tested in order, modelled by the if-chain. -/
def processStepsImage (h : HandlersI) (w : World) (step_id : String) :
    List Event :=
  let step := w.getStep step_id
  [Event.infoLog ("Received event: " ++ step_id),
    Event.getStepE step_id,
    Event.taskLog step.task_id "info"
      ("Processing Step " ++ step.step_id ++ " [ " ++ step.step_status ++
        " ]: " ++ step.input_query)] ++
  (if step.step_status ≠ "Pending" then
    [Event.warn
        (step.task_id ++ " :: Step " ++ step.step_id ++
          " is not pending. Skipping...")]
  else if step.name = "init" then h.hInit step
  else if step.name = "generateScript" then
    h.hAgent step SCRIPT_GENERATOR_DID "Script Generator" THIS_PLAN_DID
  else if step.name = "extractCharacters" then
    h.hAgent step CHARACTER_EXTRACTOR_DID "Character Extractor" THIS_PLAN_DID
  else if step.name = "generateImagesForCharacters" then h.hImages step
  else [Event.warn ("Unrecognized step name: " ++ step.name ++ ". Skipping...")])

/-- Step dispatcher `processSteps` from the video-variant stepHandlers
module (lines 23-59); identical structure with the video route table. -/
def processStepsVideo (h : HandlersV) (w : World) (step_id : String) :
    List Event :=
  let step := w.getStep step_id
  [Event.infoLog ("Received event: " ++ step_id),
    Event.getStepE step_id,
    Event.taskLog step.task_id "info"
      ("Processing Step " ++ step.step_id ++ " [ " ++ step.step_status ++
        " ]: " ++ step.input_query)] ++
  (if step.step_status ≠ "Pending" then
    [Event.warn
        (step.task_id ++ " :: Step " ++ step.step_id ++
          " is not pending. Skipping...")]
  else if step.name = "init" then h.hInit step
  else if step.name = "generateScript" then h.hScript step
  else if step.name = "generateVideoForCharacters" then h.hVideo step
  else [Event.warn ("Unrecognized step name: " ++ step.name ++ ". Skipping...")])

/-- Workflow initializer `handleInitStep` from src/steps/stepHandlers.ts
(image variant, lines 84-137): mints three fresh step ids, defines the
three successor steps chained by `predecessor`, submits them in one
`createSteps` request, logs the outcome (echoing the store's error on a
non-201 status), and then unconditionally marks the trigger step
Completed with `output = step.input_query`. -/
def handleInitStepImage (step : Step) (w : World) : List Event :=
  let scriptStepId := w.fresh 0
  let characterStepId := w.fresh 1
  let imageStepId := w.fresh 2
  let steps : List NewStep :=
    [⟨scriptStepId, step.task_id, step.step_id, "generateScript", false⟩,
      ⟨characterStepId, step.task_id, scriptStepId, "extractCharacters", false⟩,
      ⟨imageStepId, step.task_id, characterStepId,
        "generateImagesForCharacters", true⟩]
  [Event.createSteps step.did step.task_id steps,
    Event.taskLog step.task_id
      (if w.createStepsStatus = 201 then "info" else "error")
      (if w.createStepsStatus = 201 then "Steps created successfully."
        else "Error creating steps: " ++ w.createStepsData),
    Event.updateStep step.did
      { step with step_status := "Completed", output := Js.str step.input_query }]

/-- Workflow initializer `handleInitStep` from the video-variant module
(lines 68-115): same shape with two successor steps. -/
def handleInitStepVideo (step : Step) (w : World) : List Event :=
  let scriptStepId := w.fresh 0
  let videoStepId := w.fresh 1
  let steps : List NewStep :=
    [⟨scriptStepId, step.task_id, step.step_id, "generateScript", false⟩,
      ⟨videoStepId, step.task_id, scriptStepId,
        "generateVideoForCharacters", true⟩]
  [Event.infoLog "Creating steps",
    Event.createSteps step.did step.task_id steps,
    Event.taskLog step.task_id
      (if w.createStepsStatus = 201 then "info" else "error")
      (if w.createStepsStatus = 201 then "Steps created successfully."
        else "Error creating steps: " ++ w.createStepsData),
    Event.updateStep step.did
      { step with step_status := "Completed", output := Js.str step.input_query }]

/-- Predecessor pointers of a created step list form a single linked
chain rooted at `root` (each entry points at the previous entry's id). -/
def chainFrom (root : String) : List NewStep → Bool
  | [] => true
  | s :: rest => (s.predecessor = root) && chainFrom s.step_id rest

/-- Generic task validator `validateGenericTask` from the video-variant
taskValidation module (lines 13-48): fetches the remote task, computes
Completed/Failed from its `task_status`, and writes the parent step with
that terminal status, copying `output` (defaulting to an error string
when falsy) and `output_artifacts` (defaulting to an empty array). -/
def validateGenericTask (taskId agentDid : String) (parentStep : Step)
    (w : World) : List Event :=
  let task := w.taskOf agentDid taskId
  let status := if task.task_status = "Completed" then "Completed" else "Failed"
  [Event.getTaskWithSteps agentDid taskId,
    Event.updateStep parentStep.did
      { parentStep with
        step_status := status,
        output := jsOr task.output (Js.str "Error during task execution."),
        output_artifacts := jsOr task.output_artifacts (Js.arr []) },
    Event.taskLog parentStep.task_id
      (if w.updateStepStatus = 201 then "info" else "error")
      (if w.updateStepStatus = 201 then
        "Step updated successfully with task " ++ taskId ++ "."
      else
        "Error updating step with task " ++ taskId ++ ": " ++
          w.updateStepData)]

/-- Script-generation validator `validateScriptGenerationTask` from
src/steps/taskValidation.ts (lines 18-60): fetches the remote task and
returns without touching the step unless its `task_status` is Completed;
in the Completed case it writes the parent step Completed with the
copied output and artifacts. -/
def validateScriptGenerationTask (taskId agentDid : String)
    (parentStep : Step) (w : World) : List Event :=
  let task := w.taskOf agentDid taskId
  Event.getTaskWithSteps agentDid taskId ::
  (if task.task_status ≠ "Completed" then []
  else
    [Event.updateStep parentStep.did
        { parentStep with
          step_status := "Completed",
          output := jsOr task.output (Js.str "Error during task execution."),
          output_artifacts := jsOr task.output_artifacts (Js.arr []) },
      Event.infoLog "Updated step",
      Event.taskLog parentStep.task_id
        (if w.updateStepStatus = 201 then "info" else "error")
        (if w.updateStepStatus = 201 then
          "Step " ++ parentStep.step_id ++
            " updated successfully with subtask task " ++ taskId ++ "."
        else
          "Error updating step with task " ++ taskId ++ ": " ++
            w.updateStepData)])

/-- Artifact-only validator `validateImageGenerationTask` from the
image-variant taskValidation module (lines 59-71): fetches the remote
task and returns its `output_artifacts`; it never receives nor writes
the parent step. -/
def validateImageGenerationTask (taskId : String) (w : World) :
    Js × List Event :=
  ((w.taskOf IMAGE_GENERATOR_DID taskId).output_artifacts,
    [Event.getTaskWithSteps IMAGE_GENERATOR_DID taskId])

/-- Artifact-only validator `validateVideoGenerationTask` from
src/steps/taskValidation.ts (lines 73-90): fetches the remote task, logs
its artifacts, and returns them; it never receives nor writes the parent
step. -/
def validateVideoGenerationTask (taskId : String) (w : World) :
    Js × List Event :=
  let task := w.taskOf VIDEO_GENERATOR_DID taskId
  (task.output_artifacts,
    [Event.infoLog ("Validating video generation task " ++ taskId ++ "..."),
      Event.getTaskWithSteps VIDEO_GENERATOR_DID taskId,
      Event.infoVal task.output_artifacts])

/-- State of a JavaScript promise: unresolved, resolved with a value, or
rejected with an error message. -/
inductive PromiseState (α : Type) where
  | unresolved : PromiseState α
  | resolvedv : α → PromiseState α
  | rejectedv : String → PromiseState α
deriving Repr

/-- JavaScript `resolve`: settles an unresolved promise, and is a no-op
on an already-settled one (one-shot semantics of the Promise runtime). -/
def resolveP {α : Type} (ps : PromiseState α) (v : α) : PromiseState α :=
  match ps with
  | PromiseState.unresolved => PromiseState.resolvedv v
  | s => s

/-- JavaScript `reject`: settles an unresolved promise with an error,
and is a no-op on an already-settled one. -/
def rejectP {α : Type} (ps : PromiseState α) (e : String) : PromiseState α :=
  match ps with
  | PromiseState.unresolved => PromiseState.rejectedv e
  | s => s

/-- Notification callback registered by `queryAgentWithPrompt` in
src/steps/stepHandlers.ts (image variant, lines 350-381), as a promise
state transition.  A notification whose `task_status` is absent or not
"Completed" is logged and ignored.  On "Completed" the provided
`validateTaskFn` runs; its successful value is passed to `resolve` and a
thrown error is wrapped and passed to `reject` — both of which are
one-shot.  `validate` abstracts the `validateTaskFn` parameter of the
source (result of the validation call, `.error` for a throw). -/
def queryAgentCallbackImage (agentName : String)
    (validate : String → Except String Js) (n : TaskLog)
    (ps : PromiseState Js) : PromiseState Js :=
  match n.task_status with
  | some "Completed" =>
      (match validate n.task_id with
      | Except.ok artifacts => resolveP ps artifacts
      | Except.error e =>
          rejectP ps ("Error during validation for " ++ agentName ++ ": " ++ e))
  | _ => ps

/-- Notification callback registered by `queryAgentWithPrompt` in the
video-variant module (lines 306-334): same resolution policy; the
non-Completed branch returns silently, and the resolved value is the
result of `JSON.parse(artifacts)[0]`, folded into the `validate`
abstraction together with the `validateTaskFn` call (any throw in the
try block maps to `.error`). -/
def queryAgentCallbackVideo (validate : String → Except String Js)
    (n : TaskLog) (ps : PromiseState Js) : PromiseState Js :=
  match n.task_status with
  | some "Completed" =>
      (match validate n.task_id with
      | Except.ok v => resolveP ps v
      | Except.error e =>
          rejectP ps
            ("Error during validation for video generation agent: " ++ e))
  | _ => ps

/-- Delivery of a sequence of notifications to a delegation callback,
starting from a promise state. -/
def runCallbacks {α : Type} (cb : TaskLog → PromiseState α → PromiseState α)
    (notifs : List TaskLog) (ps : PromiseState α) : PromiseState α :=
  notifs.foldl (fun s n => cb n s) ps

/-- Join semantics of `Promise.all` over the settled per-item outcomes:
succeeds with the value list when every item fulfilled, and rejects when
any item rejected.  Which rejection's message wins in JavaScript depends
on settlement timing; we take the first in list order — the handlers'
step writes below do not depend on the choice. -/
def promiseAll : List (Except String Js) → Except String (List Js)
  | [] => Except.ok []
  | Except.ok v :: rest => (promiseAll rest).map (fun l => v :: l)
  | Except.error e :: _ => Except.error e

/-- Values of the fulfilled items of a settled outcome list. -/
def oks : List (Except String Js) → List Js
  | [] => []
  | Except.ok v :: rest => oks rest |>.cons v
  | Except.error _ :: rest => oks rest

/-- Join phase of `handleImageGenerationForCharacters` from
src/steps/stepHandlers.ts (lines 242-277): the `try` around
`Promise.all(tasks)`.  `rs` is the list of settled outcomes of the
per-character delegation promises.  All fulfilled: the step is written
Completed with `output_artifacts` set to the aggregated artifact array.
Any rejection: the catch writes the step Failed; the spread `...step`
leaves `output_artifacts` at the step's prior value. -/
def imageJoin (step : Step) (rs : List (Except String Js)) (w : World) :
    List Event :=
  match promiseAll rs with
  | Except.ok artifacts =>
      [Event.updateStep step.did
          { step with
            step_status := "Completed",
            output :=
              Js.str
                "Image generation tasks completed successfully for all characters.",
            output_artifacts := Js.arr artifacts },
        Event.taskLog step.task_id
          (if w.updateStepStatus = 201 then "info" else "error")
          (if w.updateStepStatus = 201 then
            "Step marked as completed successfully."
          else "Error marking step as completed: " ++ w.updateStepData)]
  | Except.error e =>
      [Event.updateStep step.did
          { step with
            step_status := "Failed",
            output := Js.str "One or more image generation tasks failed." },
        Event.taskLog step.task_id "error"
          ("Error processing image generation tasks: " ++ e)]

/-- Join phase of `handleVideoGenerationForCharacters` from the
video-variant module (lines 220-254).  `characters` is the decoded
characters object (`JSON.parse(characters[0])`), as its property list.
On success the step is written Completed with `output = input_query` and
`output_artifacts = \x7b ...characters, artifacts \x7d` — the characters
object extended with an `artifacts` property holding the aggregated
list.  On any rejection the catch writes the step Failed, leaving
`output_artifacts` at the step's prior value. -/
def videoJoin (step : Step) (characters : List (String × Js))
    (rs : List (Except String Js)) (w : World) : List Event :=
  match promiseAll rs with
  | Except.ok artifacts =>
      [Event.updateStep step.did
          { step with
            step_status := "Completed",
            output := Js.str step.input_query,
            output_artifacts :=
              Js.obj (setProp characters "artifacts" (Js.arr artifacts)) },
        Event.taskLog step.task_id
          (if w.updateStepStatus = 201 then "info" else "error")
          (if w.updateStepStatus = 201 then
            "Step marked as completed successfully."
          else "Error marking step as completed: " ++ w.updateStepData)]
  | Except.error e =>
      [Event.updateStep step.did
          { step with
            step_status := "Failed",
            output := Js.str "One or more video generation tasks failed." },
        Event.taskLog step.task_id "error"
          ("Error processing video generation tasks: " ++ e)]

/-- Outcome of the synchronous part of one `queryAgentWithPrompt`
delegation: resolved early, rejected at creation, or left pending for
the notification callback. -/
inductive SpawnOutcome where
  | fulfilled : Js → SpawnOutcome
  | rejected : String → SpawnOutcome
  | pending : SpawnOutcome
deriving Repr

/-- Synchronous part of `queryAgentWithPrompt` from
src/steps/stepHandlers.ts (image variant, lines 308-409): each
delegation performs its own balance-guard check against
`IMAGE_GENERATOR_PLAN_DID` with `requiredCredits = 1`; a failed check
resolves that delegation's promise with the empty array `[]` without
creating a task; otherwise an access config is fetched and one
`createTask` issued, rejecting on a non-201 response and staying pending
otherwise. -/
def queryAgentStartImage (step : Step) (prompt : String) (w : World) :
    SpawnOutcome × List Event :=
  let guard := ensureSufficientBalance IMAGE_GENERATOR_PLAN_DID step
    (Js.num 1) w
  if guard.1 = false then (SpawnOutcome.fulfilled (Js.arr []), guard.2)
  else
    let ev := guard.2 ++
      [Event.getAccessConfig IMAGE_GENERATOR_DID,
        Event.createTask IMAGE_GENERATOR_DID (Js.str prompt) step.name]
    if w.createTaskStatus (Js.str prompt) ≠ 201 then
      (SpawnOutcome.rejected
          ("Error creating task for Image Generator: " ++
            w.createTaskData (Js.str prompt)),
        ev)
    else
      (SpawnOutcome.pending,
        ev ++
          [Event.taskLog step.task_id "info"
              "Task created successfully for Image Generator."])

/-- Index of the last ':' in a character list, if any. -/
def lastColonIdx : List Char → Option Nat
  | [] => none
  | c :: rest =>
      match lastColonIdx rest with
      | some j => some (j + 1)
      | none => if c = ':' then some 0 else none

/-- Model of the JavaScript global replace `.replace(/,.*:/g, ",")`: the
regex matches, greedily, from a ',' through the last ':' that follows it
with no intervening line terminator (`.` does not match newlines); each
match is replaced by "," and scanning resumes after the replacement.
Structured with explicit fuel (each step consumes at least one input
character, so `cs.length` fuel is always enough) to keep the definition
kernel-reducible. -/
def replCCFuel : Nat → List Char → List Char
  | 0, cs => cs
  | _ + 1, [] => []
  | fuel + 1, c :: rest =>
      if c = ',' then
        match lastColonIdx (rest.takeWhile (fun d => d ≠ '\n')) with
        | some j => ',' :: replCCFuel fuel (rest.drop (j + 1))
        | none => c :: replCCFuel fuel rest
      else c :: replCCFuel fuel rest

/-- The JavaScript replace `.replace(/,.*:/g, ",")` on a character list. -/
def replCommaColon (cs : List Char) : List Char :=
  replCCFuel cs.length cs

/-- Joined "key: value" rendering of one character attribute, as built
by the `.map` in `generateTextToImagePrompt`. -/
def entryString (kv : String × String) : String := kv.1 ++ ": " ++ kv.2

/-- Prompt builder `generateTextToImagePrompt` from
src/steps/stepHandlers.ts (lines 285-291): maps each attribute to
"key: value", filters out entries equal to the literal "name" (the
already-joined strings, not the keys), joins with ", " and applies
`.replace(/,.*:/g, ",")`.  The character object is modelled as its
attribute list in insertion order. -/
def generateTextToImagePrompt (character : List (String × String)) : String :=
  String.mk
    (replCommaColon
      (String.intercalate ", "
          ((character.map entryString).filter (fun entry => entry ≠ "name"))).data)

/-- Spawn phase of `handleImageGenerationForCharacters`
(src/steps/stepHandlers.ts lines 216-241): no handler-level balance
check is issued; every character spawns one delegation, each with its
own guard.  `characters` is the decoded `input_artifacts` array, each a
character object given as attribute pairs. -/
def imageFanOutSpawns (step : Step)
    (characters : List (List (String × String))) (w : World) :
    List (SpawnOutcome × List Event) :=
  characters.map (fun c =>
    queryAgentStartImage step (generateTextToImagePrompt c) w)

/-- Synchronous part of `queryAgentWithPrompt` from the video-variant
module (lines 270-362): no balance check here; it fetches the access
config and issues one `createTask`, rejecting on a non-201 response. -/
def queryAgentStartVideo (step : Step) (prompt : Js) (w : World) :
    SpawnOutcome × List Event :=
  let ev :=
    [Event.infoLog
        ("Getting service access config for video generation agent: " ++
          VIDEO_GENERATOR_DID),
      Event.getAccessConfig VIDEO_GENERATOR_DID,
      Event.infoLog "Creating task for video generation agent",
      Event.createTask VIDEO_GENERATOR_DID prompt step.name]
  if w.createTaskStatus prompt ≠ 201 then
    (SpawnOutcome.rejected
        ("Error creating task for video generation agent: " ++
          w.createTaskData prompt),
      ev)
  else
    (SpawnOutcome.pending,
      ev ++
        [Event.taskLog step.task_id "info"
            "Task created successfully for video generation agent."])

/-- Prompts iterated by the video fan-out: `characters["prompts"]`.  The
JavaScript `for...of` requires this property to be an array (anything
else throws before any delegation starts); the model yields the array's
elements and `[]` otherwise. -/
def promptsOf (characters : List (String × Js)) : List Js :=
  match jsProp characters "prompts" with
  | Js.arr l => l
  | _ => []

/-- Guard-and-spawn phase of `handleVideoGenerationForCharacters` from
the video-variant module (lines 187-218): exactly one balance-guard
check is awaited before the loop, against `VIDEO_GENERATOR_PLAN_DID`
with `requiredCredits = characters.length` — the `length` property of
the decoded characters *object*, which is `undefined` unless the JSON
carried a literal "length" key; if the guard returns false the handler
returns with no delegation started, and otherwise one delegation is
spawned per element of `characters["prompts"]`. -/
def videoFanOutStart (step : Step) (characters : List (String × Js))
    (w : World) : List Event × List SpawnOutcome :=
  let guard := ensureSufficientBalance VIDEO_GENERATOR_PLAN_DID step
    (jsLengthProp (Js.obj characters)) w
  if guard.1 = false then (guard.2, [])
  else
    let spawns := (promptsOf characters).map
      (fun p => queryAgentStartVideo step p w)
    (guard.2 ++ (spawns.map Prod.snd).flatten, spawns.map Prod.fst)

/- Concrete fixtures used by witnesses and counterexamples. -/

/-- Sample trigger step in the Pending state. -/
def sampleStep : Step :=
  ⟨"sid-1", "tid-1", "did:nv:workflow", "init", none, false, "Pending",
    "make a movie about ducks", none, Js.nullv, Js.nullv⟩

/-- Sample oracle with a healthy store: ample balance, all requests
accepted, a completed remote task. -/
def sampleWorld : World :=
  ⟨fun _ => sampleStep, fun _ => 10, fun _ => true, 201, "createStepsErr",
    201, "updErr", fun _ => 201, fun _ => "createTaskErr",
    fun _ _ => ⟨"Completed", Js.str "remote out", Js.arr [Js.str "a1"]⟩,
    fun n => "fresh-" ++ toString n⟩

/-- Sample oracle with zero balance and a failing top-up order. -/
def wPoorFail : World :=
  { sampleWorld with balanceOf := (fun _ => 0), orderOk := fun _ => false }

/-- Sample oracle with zero balance and a successful top-up order. -/
def wPoorOk : World := { sampleWorld with balanceOf := fun _ => 0 }

/-- Sample oracle whose step store rejects `createSteps` with a 500
status and the error payload "store exploded". -/
def w500 : World :=
  { sampleWorld with
    createStepsStatus := 500
    createStepsData := "store exploded" }

/-- Sample oracle whose remote tasks all report status "Failed". -/
def wTaskFailed : World :=
  { sampleWorld with taskOf := fun _ _ => ⟨"Failed", Js.nullv, Js.nullv⟩ }

/-- Trivial image-variant handler set (handlers are irrelevant to the
dispatcher-level claims). -/
def hI0 : HandlersI := ⟨fun _ => [], fun _ _ _ _ => [], fun _ => []⟩

/-- Image-variant handler set that mutates on every route, to witness
handler-independence of the skip branches. -/
def hI1 : HandlersI :=
  ⟨fun s => [Event.updateStep s.did s], fun s _ _ _ => [Event.updateStep s.did s],
    fun s => [Event.updateStep s.did s]⟩

/-- Trivial video-variant handler set. -/
def hV0 : HandlersV := ⟨fun _ => [], fun _ => [], fun _ => []⟩

/-- Video-variant handler set that mutates on every route. -/
def hV1 : HandlersV :=
  ⟨fun s => [Event.updateStep s.did s], fun s => [Event.updateStep s.did s],
    fun s => [Event.updateStep s.did s]⟩

/- Trace-counting helper lemmas. -/

theorem stepMutations_append (a b : List Event) :
    stepMutations (a ++ b) = stepMutations a + stepMutations b := by
  induction a with
  | nil => simp [stepMutations]
  | cons e rest ih => cases e <;> simp [stepMutations, ih] <;> omega

theorem balanceChecks_append (a b : List Event) :
    balanceChecks (a ++ b) = balanceChecks a + balanceChecks b := by
  induction a with
  | nil => simp [balanceChecks]
  | cons e rest ih => cases e <;> simp [balanceChecks, ih] <;> omega

theorem orderPlanCalls_append (a b : List Event) :
    orderPlanCalls (a ++ b) = orderPlanCalls a + orderPlanCalls b := by
  induction a with
  | nil => simp [orderPlanCalls]
  | cons e rest ih => cases e <;> simp [orderPlanCalls, ih] <;> omega

theorem createTaskCalls_append (a b : List Event) :
    createTaskCalls (a ++ b) = createTaskCalls a + createTaskCalls b := by
  induction a with
  | nil => simp [createTaskCalls]
  | cons e rest ih => cases e <;> simp [createTaskCalls, ih] <;> omega

theorem createStepsCalls_append (a b : List Event) :
    createStepsCalls (a ++ b) = createStepsCalls a + createStepsCalls b := by
  induction a with
  | nil => simp [createStepsCalls]
  | cons e rest ih => cases e <;> simp [createStepsCalls, ih] <;> omega

theorem warningsOf_append (a b : List Event) :
    warningsOf (a ++ b) = warningsOf a ++ warningsOf b := by
  induction a with
  | nil => simp [warningsOf]
  | cons e rest ih => cases e <;> simp [warningsOf, ih]

theorem updateRecords_append (a b : List Event) :
    updateRecords (a ++ b) = updateRecords a ++ updateRecords b := by
  induction a with
  | nil => simp [updateRecords]
  | cons e rest ih => cases e <;> simp [updateRecords, ih]

/-- C3: for every step-change event, if the fetched step's `step_status`
is not Pending the dispatcher (`processSteps`, both variants) performs no
step mutation, issues no remote call, and invokes no handler — the trace
is independent of the handler set and consists of the processing log
plus one skip warning.  Consequently dispatching the same event a second
time after the first dispatch moved the step to a terminal state
(Completed or Failed) performs no second mutation. -/
theorem C3_dispatcher_pending_guard (hI hI' : HandlersI) (hV hV' : HandlersV)
    (w : World) (id : String)
    (h : (w.getStep id).step_status ≠ "Pending") :
    stepMutations (processStepsImage hI w id) = 0 ∧
    createTaskCalls (processStepsImage hI w id) = 0 ∧
    processStepsImage hI w id = processStepsImage hI' w id ∧
    warningsOf (processStepsImage hI w id) =
      [(w.getStep id).task_id ++ " :: Step " ++ (w.getStep id).step_id ++
        " is not pending. Skipping..."] ∧
    stepMutations (processStepsVideo hV w id) = 0 ∧
    createTaskCalls (processStepsVideo hV w id) = 0 ∧
    processStepsVideo hV w id = processStepsVideo hV' w id ∧
    warningsOf (processStepsVideo hV w id) =
      [(w.getStep id).task_id ++ " :: Step " ++ (w.getStep id).step_id ++
        " is not pending. Skipping..."] ∧
    (∀ w' : World,
      (w'.getStep id).step_status = "Completed" ∨
        (w'.getStep id).step_status = "Failed" →
      stepMutations (processStepsImage hI w' id) = 0 ∧
        stepMutations (processStepsVideo hV w' id) = 0) := by
  refine ⟨?_, ?_, ?_, ?_, ?_, ?_, ?_, ?_, ?_⟩
  · simp [processStepsImage, h, stepMutations_append, stepMutations]
  · simp [processStepsImage, h, createTaskCalls_append, createTaskCalls]
  · simp [processStepsImage, h]
  · simp [processStepsImage, h, warningsOf_append, warningsOf]
  · simp [processStepsVideo, h, stepMutations_append, stepMutations]
  · simp [processStepsVideo, h, createTaskCalls_append, createTaskCalls]
  · simp [processStepsVideo, h]
  · simp [processStepsVideo, h, warningsOf_append, warningsOf]
  · intro w' h'
    have hne : (w'.getStep id).step_status ≠ "Pending" := by
      rcases h' with h' | h' <;> simp [h']
    constructor
    · simp [processStepsImage, hne, stepMutations_append, stepMutations]
    · simp [processStepsVideo, hne, stepMutations_append, stepMutations]

/-- Witness for C3 at a concrete input: a step already Completed is
skipped by both dispatchers with no mutation, and a mutating handler set
changes nothing. -/
theorem C3_dispatcher_pending_guard_witness :
    stepMutations
        (processStepsImage hI1
          { sampleWorld with
            getStep := fun _ => { sampleStep with step_status := "Completed" } }
          "sid-1") = 0 ∧
    processStepsImage hI1
        { sampleWorld with
          getStep := fun _ => { sampleStep with step_status := "Completed" } }
        "sid-1" =
      processStepsImage hI0
        { sampleWorld with
          getStep := fun _ => { sampleStep with step_status := "Completed" } }
        "sid-1" ∧
    stepMutations
        (processStepsVideo hV1
          { sampleWorld with
            getStep := fun _ => { sampleStep with step_status := "Completed" } }
          "sid-1") = 0 := by
  have h := C3_dispatcher_pending_guard hI1 hI0 hV1 hV0
    { sampleWorld with
      getStep := fun _ => { sampleStep with step_status := "Completed" } }
    "sid-1" (by decide)
  exact ⟨h.1, h.2.2.1, h.2.2.2.2.1⟩

/-- C8: dispatching a Pending step whose name matches no handler case
performs no step mutation and no remote call in either dispatcher
variant: the trace is exactly the processing log plus one
"Unrecognized step name" warning, independent of the handler set (and,
being a total function of the inputs, the dispatcher returns normally). -/
theorem C8_unknown_name_noop (hI hI' : HandlersI) (hV hV' : HandlersV)
    (w : World) (id : String)
    (hp : (w.getStep id).step_status = "Pending")
    (hnI : (w.getStep id).name ∉
      ["init", "generateScript", "extractCharacters",
        "generateImagesForCharacters"])
    (hnV : (w.getStep id).name ∉
      ["init", "generateScript", "generateVideoForCharacters"]) :
    processStepsImage hI w id =
      [Event.infoLog ("Received event: " ++ id),
        Event.getStepE id,
        Event.taskLog (w.getStep id).task_id "info"
          ("Processing Step " ++ (w.getStep id).step_id ++ " [ " ++
            (w.getStep id).step_status ++ " ]: " ++ (w.getStep id).input_query),
        Event.warn
          ("Unrecognized step name: " ++ (w.getStep id).name ++
            ". Skipping...")] ∧
    stepMutations (processStepsImage hI w id) = 0 ∧
    createTaskCalls (processStepsImage hI w id) = 0 ∧
    processStepsImage hI w id = processStepsImage hI' w id ∧
    processStepsVideo hV w id =
      [Event.infoLog ("Received event: " ++ id),
        Event.getStepE id,
        Event.taskLog (w.getStep id).task_id "info"
          ("Processing Step " ++ (w.getStep id).step_id ++ " [ " ++
            (w.getStep id).step_status ++ " ]: " ++ (w.getStep id).input_query),
        Event.warn
          ("Unrecognized step name: " ++ (w.getStep id).name ++
            ". Skipping...")] ∧
    stepMutations (processStepsVideo hV w id) = 0 ∧
    processStepsVideo hV w id = processStepsVideo hV' w id := by
  simp only [List.mem_cons, List.not_mem_nil, or_false, not_or] at hnI hnV
  obtain ⟨n1, n2, n3, n4⟩ := hnI
  obtain ⟨m1, m2, m3⟩ := hnV
  refine ⟨?_, ?_, ?_, ?_, ?_, ?_, ?_⟩ <;>
    simp [processStepsImage, processStepsVideo, hp, n1, n2, n3, n4, m1, m2,
      m3, stepMutations_append, stepMutations, createTaskCalls_append,
      createTaskCalls]

/-- Witness for C8 at a concrete input: a Pending step named
"doesNotExist" is skipped with a warning and no mutation. -/
theorem C8_unknown_name_noop_witness :
    processStepsImage hI1
        { sampleWorld with
          getStep := fun _ => { sampleStep with name := "doesNotExist" } }
        "sid-1" =
      [Event.infoLog "Received event: sid-1",
        Event.getStepE "sid-1",
        Event.taskLog "tid-1" "info"
          "Processing Step sid-1 [ Pending ]: make a movie about ducks",
        Event.warn "Unrecognized step name: doesNotExist. Skipping..."] ∧
    stepMutations
        (processStepsVideo hV1
          { sampleWorld with
            getStep := fun _ => { sampleStep with name := "doesNotExist" } }
          "sid-1") = 0 := by
  have h := C8_unknown_name_noop hI1 hI0 hV1 hV0
    { sampleWorld with
      getStep := fun _ => { sampleStep with name := "doesNotExist" } }
    "sid-1" (by decide) (by decide) (by decide)
  refine ⟨?_, h.2.2.2.2.2.1⟩
  have h1 := h.1
  simpa using h1

/-- C4: for every plan and step, when the read balance is below the
required credits `ensureSufficientBalance` attempts exactly one top-up
(`orderPlan`); if the top-up fails it writes the step Failed with an
output beginning "Insufficient balance" and returns false; if the top-up
succeeds it returns true with no step mutation and without re-reading
the balance (exactly one balance read in the trace); when the balance is
already sufficient it returns true with no top-up and no step mutation. -/
theorem C4_balance_guard (w : World) (plan : String) (step : Step) (r : Int) :
    (w.balanceOf plan < r →
      orderPlanCalls (ensureSufficientBalance plan step (Js.num r) w).2 = 1 ∧
      balanceChecks (ensureSufficientBalance plan step (Js.num r) w).2 = 1 ∧
      (w.orderOk plan = false →
        (ensureSufficientBalance plan step (Js.num r) w).1 = false ∧
        (updateRecords (ensureSufficientBalance plan step (Js.num r) w).2).map
            Step.step_status = ["Failed"] ∧
        ∃ t,
          (updateRecords (ensureSufficientBalance plan step (Js.num r) w).2).map
              Step.output = [Js.str ("Insufficient balance" ++ t)]) ∧
      (w.orderOk plan = true →
        (ensureSufficientBalance plan step (Js.num r) w).1 = true ∧
        stepMutations (ensureSufficientBalance plan step (Js.num r) w).2 = 0)) ∧
    (¬ w.balanceOf plan < r →
      (ensureSufficientBalance plan step (Js.num r) w).1 = true ∧
      stepMutations (ensureSufficientBalance plan step (Js.num r) w).2 = 0 ∧
      orderPlanCalls (ensureSufficientBalance plan step (Js.num r) w).2 = 0 ∧
      balanceChecks (ensureSufficientBalance plan step (Js.num r) w).2 = 1) := by
  constructor
  · intro hlt
    have hcond : jsLt (w.balanceOf plan) (Js.num r) = true := by
      simp [jsLt, hlt]
    rcases hok : w.orderOk plan with _ | _
    · refine ⟨?_, ?_, ?_, ?_⟩ <;>
        simp [ensureSufficientBalance, hcond, hok, orderPlanCalls_append,
          orderPlanCalls, balanceChecks_append, balanceChecks,
          updateRecords_append, updateRecords, stepMutations_append,
          stepMutations]
      exact ⟨" and failed to order credits.", rfl⟩
    · refine ⟨?_, ?_, ?_, ?_⟩ <;>
        simp [ensureSufficientBalance, hcond, hok, orderPlanCalls_append,
          orderPlanCalls, balanceChecks_append, balanceChecks,
          updateRecords_append, updateRecords, stepMutations_append,
          stepMutations]
  · intro hge
    have hcond : jsLt (w.balanceOf plan) (Js.num r) = false := by
      simp [jsLt, hge]
    refine ⟨?_, ?_, ?_, ?_⟩ <;>
      simp [ensureSufficientBalance, hcond, orderPlanCalls, balanceChecks,
        stepMutations]

/-- Witness for C4 at concrete inputs: balance 0 with a failing top-up
returns false and writes the step Failed with an "Insufficient balance"
output; balance 0 with a successful top-up returns true with no step
mutation; balance 10 returns true with no top-up. -/
theorem C4_balance_guard_witness :
    (ensureSufficientBalance "p" sampleStep (Js.num 1) wPoorFail).1 = false ∧
    (updateRecords
          (ensureSufficientBalance "p" sampleStep (Js.num 1) wPoorFail).2).map
        Step.step_status = ["Failed"] ∧
    (ensureSufficientBalance "p" sampleStep (Js.num 1) wPoorOk).1 = true ∧
    stepMutations
        (ensureSufficientBalance "p" sampleStep (Js.num 1) wPoorOk).2 = 0 ∧
    (ensureSufficientBalance "p" sampleStep (Js.num 1) sampleWorld).1 = true ∧
    orderPlanCalls
        (ensureSufficientBalance "p" sampleStep (Js.num 1) sampleWorld).2 = 0 := by
  have h1 := (C4_balance_guard wPoorFail "p" sampleStep 1).1 (by decide)
  have h2 := (C4_balance_guard wPoorOk "p" sampleStep 1).1 (by decide)
  have h3 := (C4_balance_guard sampleWorld "p" sampleStep 1).2 (by decide)
  exact ⟨(h1.2.2.1 rfl).1, (h1.2.2.1 rfl).2.1, (h2.2.2.2 rfl).1,
    (h2.2.2.2 rfl).2, h3.1, h3.2.2.1⟩

/-- C9: the artifact-only validators (`validateImageGenerationTask`,
`validateVideoGenerationTask`) mutate no Step record: their traces
contain no step write of any kind, and they only fetch the remote task
and return its `output_artifacts`. -/
theorem C9_artifact_only_validators_frame (w : World) (t : String) :
    (validateImageGenerationTask t w).1 =
      (w.taskOf IMAGE_GENERATOR_DID t).output_artifacts ∧
    updateRecords (validateImageGenerationTask t w).2 = [] ∧
    stepMutations (validateImageGenerationTask t w).2 = 0 ∧
    (validateVideoGenerationTask t w).1 =
      (w.taskOf VIDEO_GENERATOR_DID t).output_artifacts ∧
    updateRecords (validateVideoGenerationTask t w).2 = [] ∧
    stepMutations (validateVideoGenerationTask t w).2 = 0 := by
  refine ⟨rfl, rfl, rfl, rfl, rfl, rfl⟩

/-- Notifications without a successful terminal status leave the
promise state of either delegation callback untouched. -/
theorem callback_ignores_non_completed (agentName : String)
    (validate : String → Except String Js) (n : TaskLog)
    (ps : PromiseState Js) (h : n.task_status ≠ some "Completed") :
    queryAgentCallbackImage agentName validate n ps = ps ∧
    queryAgentCallbackVideo validate n ps = ps := by
  constructor
  · simp [queryAgentCallbackImage, h]
  · simp [queryAgentCallbackVideo, h]

/-- A settled promise is never changed by either delegation callback. -/
theorem callback_keeps_settled (agentName : String)
    (validate : String → Except String Js) (n : TaskLog)
    (ps : PromiseState Js) (h : ps ≠ PromiseState.unresolved) :
    queryAgentCallbackImage agentName validate n ps = ps ∧
    queryAgentCallbackVideo validate n ps = ps := by
  cases ps with
  | unresolved => exact absurd rfl h
  | resolvedv v =>
      constructor
      · simp only [queryAgentCallbackImage]
        split
        · cases validate n.task_id <;> rfl
        · rfl
      · simp only [queryAgentCallbackVideo]
        split
        · cases validate n.task_id <;> rfl
        · rfl
  | rejectedv e =>
      constructor
      · simp only [queryAgentCallbackImage]
        split
        · cases validate n.task_id <;> rfl
        · rfl
      · simp only [queryAgentCallbackVideo]
        split
        · cases validate n.task_id <;> rfl
        · rfl

/-- A successful "Completed" notification resolves an unresolved
promise with the validated value, in either delegation callback. -/
theorem callback_resolves_completed (agentName : String)
    (validate : String → Except String Js) (n : TaskLog) (v : Js)
    (hst : n.task_status = some "Completed")
    (hok : validate n.task_id = Except.ok v) :
    queryAgentCallbackImage agentName validate n PromiseState.unresolved =
        PromiseState.resolvedv v ∧
      queryAgentCallbackVideo validate n PromiseState.unresolved =
        PromiseState.resolvedv v := by
  constructor
  · simp only [queryAgentCallbackImage]
    rw [hst]
    simp [hok, resolveP]
  · simp only [queryAgentCallbackVideo]
    rw [hst]
    simp [hok, resolveP]

/-- A settled promise stays settled across any further notification
sequence. -/
theorem runCallbacks_keeps_settled {α : Type}
    (cb : TaskLog → PromiseState α → PromiseState α)
    (hcb : ∀ n ps, ps ≠ PromiseState.unresolved → cb n ps = ps)
    (notifs : List TaskLog) (ps : PromiseState α)
    (h : ps ≠ PromiseState.unresolved) :
    runCallbacks cb notifs ps = ps := by
  induction notifs with
  | nil => rfl
  | cons n rest ih =>
      show runCallbacks cb rest (cb n ps) = ps
      rw [hcb n ps h]
      exact ih

/-- C2: for every delegation created by `queryAgentWithPrompt` (both
variants) and every notification sequence delivered to its callback:
notifications whose `task_status` is absent or not "Completed" cause no
state change (progress logs only); an unresolved promise is resolved by
the first "Completed" notification (with the validated artifacts when
validation succeeds); and once settled, no later notification can
resolve or reject the promise again — in particular, a sequence whose
first "Completed" notification is at any position resolves exactly to
that notification's validated value regardless of what follows. -/
theorem C2_single_resolution (agentName : String)
    (validate : String → Except String Js) :
    (∀ (n : TaskLog) (ps : PromiseState Js),
      n.task_status ≠ some "Completed" →
      queryAgentCallbackImage agentName validate n ps = ps ∧
        queryAgentCallbackVideo validate n ps = ps) ∧
    (∀ (n : TaskLog) (v : Js), n.task_status = some "Completed" →
      validate n.task_id = Except.ok v →
      queryAgentCallbackImage agentName validate n PromiseState.unresolved =
          PromiseState.resolvedv v ∧
        queryAgentCallbackVideo validate n PromiseState.unresolved =
          PromiseState.resolvedv v) ∧
    (∀ (n : TaskLog) (ps : PromiseState Js), ps ≠ PromiseState.unresolved →
      queryAgentCallbackImage agentName validate n ps = ps ∧
        queryAgentCallbackVideo validate n ps = ps) ∧
    (∀ (pre post : List TaskLog) (n : TaskLog) (v : Js),
      (∀ m ∈ pre, m.task_status ≠ some "Completed") →
      n.task_status = some "Completed" →
      validate n.task_id = Except.ok v →
      runCallbacks (queryAgentCallbackImage agentName validate)
          (pre ++ n :: post) PromiseState.unresolved =
          PromiseState.resolvedv v ∧
        runCallbacks (queryAgentCallbackVideo validate)
          (pre ++ n :: post) PromiseState.unresolved =
          PromiseState.resolvedv v) := by
  refine ⟨fun n ps h => callback_ignores_non_completed agentName validate n ps h,
    ?_, fun n ps h => callback_keeps_settled agentName validate n ps h, ?_⟩
  · intro n v hst hok
    exact callback_resolves_completed agentName validate n v hst hok
  · intro pre post n v hpre hst hok
    induction pre with
    | nil =>
        have hn := callback_resolves_completed agentName validate n v hst hok
        constructor
        · show runCallbacks (queryAgentCallbackImage agentName validate) post
              (queryAgentCallbackImage agentName validate n
                PromiseState.unresolved) = PromiseState.resolvedv v
          rw [hn.1]
          exact runCallbacks_keeps_settled _
            (fun m ps h =>
              (callback_keeps_settled agentName validate m ps h).1)
            post _ (by intro h; exact PromiseState.noConfusion h)
        · show runCallbacks (queryAgentCallbackVideo validate) post
              (queryAgentCallbackVideo validate n PromiseState.unresolved) =
              PromiseState.resolvedv v
          rw [hn.2]
          exact runCallbacks_keeps_settled _
            (fun m ps h =>
              (callback_keeps_settled agentName validate m ps h).2)
            post _ (by intro h; exact PromiseState.noConfusion h)
    | cons m rest ih =>
        have hm := callback_ignores_non_completed agentName validate m
          PromiseState.unresolved (hpre m (List.mem_cons_self m rest))
        have ih' := ih (fun x hx => hpre x (List.mem_cons_of_mem m hx))
        constructor
        · show runCallbacks (queryAgentCallbackImage agentName validate)
              (rest ++ n :: post)
              (queryAgentCallbackImage agentName validate m
                PromiseState.unresolved) = PromiseState.resolvedv v
          rw [hm.1]
          exact ih'.1
        · show runCallbacks (queryAgentCallbackVideo validate)
              (rest ++ n :: post)
              (queryAgentCallbackVideo validate m PromiseState.unresolved) =
              PromiseState.resolvedv v
          rw [hm.2]
          exact ih'.2

/-- Witness for C2 at a concrete input, mirroring the spec's example: a
delegation receiving Running, Running, Completed resolves exactly once,
on the third notification, to the validated artifact value. -/
theorem C2_single_resolution_witness :
    runCallbacks
        (queryAgentCallbackImage "Image Generator"
          (fun _ => Except.ok (Js.str "image-url")))
        [⟨some "Running", "t1", "m1"⟩, ⟨some "Running", "t1", "m2"⟩,
          ⟨some "Completed", "t1", "done"⟩]
        PromiseState.unresolved = PromiseState.resolvedv (Js.str "image-url") ∧
    runCallbacks
        (queryAgentCallbackVideo (fun _ => Except.ok (Js.str "video-url")))
        [⟨some "Running", "t1", "m1"⟩, ⟨some "Running", "t1", "m2"⟩,
          ⟨some "Completed", "t1", "done"⟩]
        PromiseState.unresolved = PromiseState.resolvedv (Js.str "video-url") := by
  constructor
  · exact ((C2_single_resolution "Image Generator"
      (fun _ => Except.ok (Js.str "image-url"))).2.2.2
      [⟨some "Running", "t1", "m1"⟩, ⟨some "Running", "t1", "m2"⟩] []
      ⟨some "Completed", "t1", "done"⟩ (Js.str "image-url")
      (by decide) rfl rfl).1
  · exact ((C2_single_resolution "Image Generator"
      (fun _ => Except.ok (Js.str "video-url"))).2.2.2
      [⟨some "Running", "t1", "m1"⟩, ⟨some "Running", "t1", "m2"⟩] []
      ⟨some "Completed", "t1", "done"⟩ (Js.str "video-url")
      (by decide) rfl rfl).2

/-- Counterexample for C6: with the step store answering 500 ("store
exploded") to `createSteps`, `handleInitStep` does not mark the trigger
step Failed with the store's error in `output` — the only step write it
performs still carries status Completed and `output = input_query`; the
store's error appears only in an error-level task log. -/
theorem C6_cex :
    (updateRecords
          (handleInitStepImage sampleStep
            w500)).map Step.step_status =
      ["Completed"] ∧
    ¬ (∃ r ∈ updateRecords
          (handleInitStepImage sampleStep
            w500),
        r.step_status = "Failed") ∧
    (updateRecords
          (handleInitStepImage sampleStep
            w500)).map Step.output =
      [Js.str sampleStep.input_query] := by
  refine ⟨rfl, ?_, rfl⟩
  decide

/-- C6 (amended): `handleInitStep` (both variants) creates successor
steps whose `predecessor` pointers form a single linked chain starting
at the trigger step's id with exactly the final step flagged
`is_last = true`, submitted as one creation request; the creation
response's status selects only the log entry (on a non-201 response the
store's error is echoed in an error-level log, not in the step), and in
all cases — success or failure of the creation request — the trigger
step is then marked Completed with `output` equal to the trigger's
`input_query`. -/
theorem C6_init_chain (w : World) (step : Step) :
    createStepsCalls (handleInitStepImage step w) = 1 ∧
    (∃ steps, Event.createSteps step.did step.task_id steps ∈
        handleInitStepImage step w ∧
      chainFrom step.step_id steps = true ∧
      steps.map NewStep.is_last = [false, false, true]) ∧
    (updateRecords (handleInitStepImage step w)).map Step.step_status =
      ["Completed"] ∧
    (updateRecords (handleInitStepImage step w)).map Step.output =
      [Js.str step.input_query] ∧
    (w.createStepsStatus ≠ 201 →
      Event.taskLog step.task_id "error"
          ("Error creating steps: " ++ w.createStepsData) ∈
        handleInitStepImage step w) ∧
    createStepsCalls (handleInitStepVideo step w) = 1 ∧
    (∃ steps, Event.createSteps step.did step.task_id steps ∈
        handleInitStepVideo step w ∧
      chainFrom step.step_id steps = true ∧
      steps.map NewStep.is_last = [false, true]) ∧
    (updateRecords (handleInitStepVideo step w)).map Step.step_status =
      ["Completed"] ∧
    (updateRecords (handleInitStepVideo step w)).map Step.output =
      [Js.str step.input_query] ∧
    (w.createStepsStatus ≠ 201 →
      Event.taskLog step.task_id "error"
          ("Error creating steps: " ++ w.createStepsData) ∈
        handleInitStepVideo step w) := by
  refine ⟨rfl, ?_, rfl, rfl, ?_, rfl, ?_, rfl, rfl, ?_⟩
  · refine ⟨[⟨w.fresh 0, step.task_id, step.step_id, "generateScript", false⟩,
      ⟨w.fresh 1, step.task_id, w.fresh 0, "extractCharacters", false⟩,
      ⟨w.fresh 2, step.task_id, w.fresh 1, "generateImagesForCharacters",
        true⟩], ?_, ?_, rfl⟩
    · simp [handleInitStepImage]
    · simp [chainFrom]
  · intro h
    simp [handleInitStepImage, h]
  · refine ⟨[⟨w.fresh 0, step.task_id, step.step_id, "generateScript", false⟩,
      ⟨w.fresh 1, step.task_id, w.fresh 0, "generateVideoForCharacters",
        true⟩], ?_, ?_, rfl⟩
    · simp [handleInitStepVideo]
    · simp [chainFrom]
  · intro h
    simp [handleInitStepVideo, h]

/-- Witness for C6 at a concrete input: with status 500 the error log
carries the store's error and the trigger step is still Completed. -/
theorem C6_init_chain_witness :
    Event.taskLog "tid-1" "error" "Error creating steps: store exploded" ∈
      handleInitStepImage sampleStep
        w500 ∧
    createStepsCalls
        (handleInitStepVideo sampleStep
          w500) = 1 := by
  have h := C6_init_chain
    w500 sampleStep
  exact ⟨h.2.2.2.2.1 (by decide), h.2.2.2.2.2.1⟩

/-- Counterexample for C7: with the remote task reporting status
"Failed", `validateScriptGenerationTask` performs no step write at all —
the parent step is not written with terminal status Failed as the claim
states. -/
theorem C7_cex :
    (((wTaskFailed :
          World).taskOf SCRIPT_GENERATOR_DID "t1").task_status = "Failed") ∧
    updateRecords
        (validateScriptGenerationTask "t1" SCRIPT_GENERATOR_DID sampleStep
          wTaskFailed) = [] ∧
    stepMutations
        (validateScriptGenerationTask "t1" SCRIPT_GENERATOR_DID sampleStep
          wTaskFailed) = 0 := by
  exact ⟨rfl, rfl, rfl⟩

/-- C7 (amended): `validateGenericTask` writes the parent step with
terminal status Completed when the fetched remote task's `task_status`
is Completed and Failed otherwise, copying the task's output (defaulting
to an error string when absent/falsy) and `output_artifacts` (defaulting
to an empty array); `validateScriptGenerationTask` performs the same
Completed-case write but, when the task is not Completed, returns
without any step write instead of writing Failed. -/
theorem C7_generic_validator (w : World) (t agent : String) (step : Step) :
    ((w.taskOf agent t).task_status = "Completed" →
      updateRecords (validateGenericTask t agent step w) =
        [{ step with
            step_status := "Completed",
            output := jsOr (w.taskOf agent t).output
              (Js.str "Error during task execution."),
            output_artifacts :=
              jsOr (w.taskOf agent t).output_artifacts (Js.arr []) }] ∧
      updateRecords (validateScriptGenerationTask t agent step w) =
        [{ step with
            step_status := "Completed",
            output := jsOr (w.taskOf agent t).output
              (Js.str "Error during task execution."),
            output_artifacts :=
              jsOr (w.taskOf agent t).output_artifacts (Js.arr []) }]) ∧
    ((w.taskOf agent t).task_status ≠ "Completed" →
      updateRecords (validateGenericTask t agent step w) =
        [{ step with
            step_status := "Failed",
            output := jsOr (w.taskOf agent t).output
              (Js.str "Error during task execution."),
            output_artifacts :=
              jsOr (w.taskOf agent t).output_artifacts (Js.arr []) }] ∧
      updateRecords (validateScriptGenerationTask t agent step w) = [] ∧
      stepMutations (validateScriptGenerationTask t agent step w) = 0) := by
  constructor
  · intro h
    constructor
    · simp [validateGenericTask, updateRecords, h]
    · simp [validateScriptGenerationTask, updateRecords, h]
  · intro h
    refine ⟨?_, ?_, ?_⟩
    · simp [validateGenericTask, updateRecords, h]
    · simp [validateScriptGenerationTask, updateRecords, h]
    · simp [validateScriptGenerationTask, stepMutations, h]

/-- Witness for C7 at concrete inputs: a Completed remote task makes
both validators write the step Completed with the copied payload; a
Failed remote task makes the generic validator write Failed while the
script validator writes nothing. -/
theorem C7_generic_validator_witness :
    (updateRecords
          (validateGenericTask "t1" SCRIPT_GENERATOR_DID sampleStep
            sampleWorld)).map Step.step_status = ["Completed"] ∧
    (updateRecords
          (validateGenericTask "t1" SCRIPT_GENERATOR_DID sampleStep
            wTaskFailed)).map
        Step.step_status = ["Failed"] ∧
    updateRecords
        (validateScriptGenerationTask "t1" SCRIPT_GENERATOR_DID sampleStep
          wTaskFailed) = [] := by
  have h1 := (C7_generic_validator sampleWorld "t1" SCRIPT_GENERATOR_DID
    sampleStep).1 (by decide)
  have h2 := (C7_generic_validator
    wTaskFailed
    "t1" SCRIPT_GENERATOR_DID sampleStep).2 (by decide)
  refine ⟨?_, ?_, h2.2.1⟩
  · rw [h1.1]
    rfl
  · rw [h2.1]
    rfl

/-- When every settled outcome is a fulfillment, `Promise.all` fulfills
with the list of values. -/
theorem promiseAll_all_ok (rs : List (Except String Js))
    (h : ∀ r ∈ rs, ∃ v, r = Except.ok v) :
    promiseAll rs = Except.ok (oks rs) := by
  induction rs with
  | nil => rfl
  | cons r rest ih =>
      obtain ⟨v, rfl⟩ := h r (List.mem_cons_self r rest)
      have ih' := ih (fun x hx => h x (List.mem_cons_of_mem _ hx))
      simp [promiseAll, oks, ih', Except.map]

/-- When any settled outcome is a rejection, `Promise.all` rejects. -/
theorem promiseAll_any_error (rs : List (Except String Js))
    (h : ∃ e, Except.error e ∈ rs) :
    ∃ e, promiseAll rs = Except.error e := by
  induction rs with
  | nil =>
      obtain ⟨e, he⟩ := h
      exact absurd he (List.not_mem_nil _)
  | cons r rest ih =>
      cases r with
      | error e => exact ⟨e, rfl⟩
      | ok v =>
          obtain ⟨e, he⟩ := h
          rcases List.mem_cons.mp he with h1 | h1
          · exact absurd h1 (by intro h2; exact Except.noConfusion h2)
          · obtain ⟨e', he'⟩ := ih ⟨e, h1⟩
            exact ⟨e', by simp [promiseAll, he', Except.map]⟩

/-- Counterexample for C1: a video fan-out whose single delegation
promise fulfills with "clip1" writes the step Completed, but its
`output_artifacts` is not the aggregated artifact list — it is the
decoded characters object extended with an `artifacts` property. -/
theorem C1_cex :
    (updateRecords
          (videoJoin sampleStep [("prompts", Js.arr [Js.str "p1"])]
            [Except.ok (Js.str "clip1")] sampleWorld)).map Step.step_status =
      ["Completed"] ∧
    (updateRecords
          (videoJoin sampleStep [("prompts", Js.arr [Js.str "p1"])]
            [Except.ok (Js.str "clip1")] sampleWorld)).map
        Step.output_artifacts =
      [Js.obj
          [("prompts", Js.arr [Js.str "p1"]),
            ("artifacts", Js.arr [Js.str "clip1"])]] ∧
    ¬ ((updateRecords
          (videoJoin sampleStep [("prompts", Js.arr [Js.str "p1"])]
            [Except.ok (Js.str "clip1")] sampleWorld)).map
        Step.output_artifacts =
      [Js.arr [Js.str "clip1"]]) := by
  refine ⟨rfl, rfl, ?_⟩
  intro h
  rw [show (updateRecords
      (videoJoin sampleStep [("prompts", Js.arr [Js.str "p1"])]
        [Except.ok (Js.str "clip1")] sampleWorld)).map Step.output_artifacts =
      [Js.obj
        [("prompts", Js.arr [Js.str "p1"]),
          ("artifacts", Js.arr [Js.str "clip1"])]] from rfl] at h
  injection h with h1 h2
  exact Js.noConfusion h1

/-- C1 (amended): for the fan-out join on a step with N settled
delegation outcomes: if every promise fulfills, the step is written with
terminal status Completed — the image handler sets `output_artifacts` to
the aggregated artifact list, while the video handler sets it to the
decoded characters object extended with an `artifacts` property holding
the aggregated list; if any promise rejects, both handlers write the
step with terminal status Failed and leave `output_artifacts` at the
step's prior value, so no successful sub-result is persisted as the
step's output. -/
theorem C1_all_or_nothing (w : World) (step : Step)
    (characters : List (String × Js)) (rs : List (Except String Js)) :
    ((∀ r ∈ rs, ∃ v, r = Except.ok v) →
      updateRecords (imageJoin step rs w) =
        [{ step with
            step_status := "Completed",
            output :=
              Js.str
                "Image generation tasks completed successfully for all characters.",
            output_artifacts := Js.arr (oks rs) }] ∧
      updateRecords (videoJoin step characters rs w) =
        [{ step with
            step_status := "Completed",
            output := Js.str step.input_query,
            output_artifacts :=
              Js.obj (setProp characters "artifacts" (Js.arr (oks rs))) }]) ∧
    ((∃ e, Except.error e ∈ rs) →
      (updateRecords (imageJoin step rs w)).map Step.step_status =
          ["Failed"] ∧
      (updateRecords (imageJoin step rs w)).map Step.output_artifacts =
          [step.output_artifacts] ∧
      (updateRecords (videoJoin step characters rs w)).map Step.step_status =
          ["Failed"] ∧
      (updateRecords (videoJoin step characters rs w)).map
          Step.output_artifacts = [step.output_artifacts]) := by
  constructor
  · intro h
    have hp := promiseAll_all_ok rs h
    constructor
    · simp only [imageJoin]
      rw [hp]
      rfl
    · simp only [videoJoin]
      rw [hp]
      rfl
  · intro h
    obtain ⟨e, he⟩ := promiseAll_any_error rs h
    refine ⟨?_, ?_, ?_, ?_⟩ <;>
      · simp only [imageJoin, videoJoin]
        rw [he]
        rfl

/-- Witness for C1 at concrete inputs: two fulfilled outcomes complete
the image step with both artifacts aggregated; one rejection among
fulfilled outcomes fails both variants' steps and leaves
`output_artifacts` untouched. -/
theorem C1_all_or_nothing_witness :
    updateRecords
        (imageJoin sampleStep [Except.ok (Js.str "u1"), Except.ok (Js.str "u2")]
          sampleWorld) =
      [{ sampleStep with
          step_status := "Completed",
          output :=
            Js.str
              "Image generation tasks completed successfully for all characters.",
          output_artifacts := Js.arr [Js.str "u1", Js.str "u2"] }] ∧
    (updateRecords
          (imageJoin sampleStep
            [Except.ok (Js.str "u1"), Except.error "boom",
              Except.ok (Js.str "u3")] sampleWorld)).map Step.step_status =
      ["Failed"] ∧
    (updateRecords
          (imageJoin sampleStep
            [Except.ok (Js.str "u1"), Except.error "boom",
              Except.ok (Js.str "u3")] sampleWorld)).map Step.output_artifacts =
      [sampleStep.output_artifacts] ∧
    (updateRecords
          (videoJoin sampleStep [("prompts", Js.arr [Js.str "p1"])]
            [Except.ok (Js.str "u1"), Except.error "boom",
              Except.ok (Js.str "u3")] sampleWorld)).map Step.step_status =
      ["Failed"] := by
  have h1 := (C1_all_or_nothing sampleWorld sampleStep []
    [Except.ok (Js.str "u1"), Except.ok (Js.str "u2")]).1
    (by
      intro r hr
      simp only [List.mem_cons, List.not_mem_nil, or_false] at hr
      rcases hr with rfl | rfl
      · exact ⟨_, rfl⟩
      · exact ⟨_, rfl⟩)
  have h2 := (C1_all_or_nothing sampleWorld sampleStep
    [("prompts", Js.arr [Js.str "p1"])]
    [Except.ok (Js.str "u1"), Except.error "boom",
      Except.ok (Js.str "u3")]).2 ⟨"boom", by simp⟩
  exact ⟨h1.1, h2.1, h2.2.1, h2.2.2.1⟩

/-- The balance guard's trace starts with one `balanceCheck` event
carrying the `required` argument it was invoked with, contains no other
balance check and no task creation. -/
theorem guard_trace (plan : String) (step : Step) (required : Js)
    (w : World) :
    balanceChecks (ensureSufficientBalance plan step required w).2 = 1 ∧
    createTaskCalls (ensureSufficientBalance plan step required w).2 = 0 ∧
    (∃ rest, (ensureSufficientBalance plan step required w).2 =
      Event.balanceCheck plan required :: rest) := by
  unfold ensureSufficientBalance
  split
  · split
    · exact ⟨rfl, rfl, _, rfl⟩
    · exact ⟨rfl, rfl, _, rfl⟩
  · exact ⟨rfl, rfl, _, rfl⟩

/-- The video-variant `queryAgentWithPrompt` performs no balance check
and no top-up of its own. -/
theorem videoSpawn_no_guard (step : Step) (p : Js) (w : World) :
    balanceChecks (queryAgentStartVideo step p w).2 = 0 ∧
    orderPlanCalls (queryAgentStartVideo step p w).2 = 0 := by
  unfold queryAgentStartVideo
  split
  · exact ⟨rfl, rfl⟩
  · exact ⟨rfl, rfl⟩

/-- Each image-variant delegation performs exactly one balance check, of
one credit, against the image generator plan, and a failed guard
resolves that delegation with the empty array. -/
theorem imageSpawn_guard (step : Step) (prompt : String) (w : World) :
    balanceChecks (queryAgentStartImage step prompt w).2 = 1 ∧
    Event.balanceCheck IMAGE_GENERATOR_PLAN_DID (Js.num 1) ∈
      (queryAgentStartImage step prompt w).2 ∧
    ((ensureSufficientBalance IMAGE_GENERATOR_PLAN_DID step (Js.num 1) w).1 =
        false →
      (queryAgentStartImage step prompt w).1 =
        SpawnOutcome.fulfilled (Js.arr [])) := by
  obtain ⟨hc, -, rest, hrest⟩ :=
    guard_trace IMAGE_GENERATOR_PLAN_DID step (Js.num 1) w
  unfold queryAgentStartImage
  dsimp only
  split
  · refine ⟨hc, ?_, fun _ => rfl⟩
    rw [hrest]
    exact List.mem_cons_self _ _
  · rename_i hguard
    split
    · refine ⟨?_, ?_, fun hf => absurd hf hguard⟩
      · rw [balanceChecks_append, hc]
        rfl
      · rw [hrest]
        exact List.mem_cons_self _ _
    · refine ⟨?_, ?_, fun hf => absurd hf hguard⟩
      · rw [List.append_assoc, balanceChecks_append, hc]
        rfl
      · rw [hrest]
        exact List.mem_cons_self _ _

/-- A list of traces each free of balance checks flattens to a trace
free of balance checks. -/
theorem balanceChecks_flatten_zero (ls : List (List Event))
    (h : ∀ l ∈ ls, balanceChecks l = 0) : balanceChecks ls.flatten = 0 := by
  induction ls with
  | nil => rfl
  | cons l rest ih =>
      rw [List.flatten_cons, balanceChecks_append,
        h l (List.mem_cons_self l rest),
        ih (fun x hx => h x (List.mem_cons_of_mem _ hx))]

/-- A list of traces each with one balance check flattens to a trace
with as many balance checks as traces. -/
theorem balanceChecks_flatten_ones (ls : List (List Event))
    (h : ∀ l ∈ ls, balanceChecks l = 1) :
    balanceChecks ls.flatten = ls.length := by
  induction ls with
  | nil => rfl
  | cons l rest ih =>
      rw [List.flatten_cons, balanceChecks_append,
        h l (List.mem_cons_self l rest),
        ih (fun x hx => h x (List.mem_cons_of_mem _ hx)), List.length_cons]
      omega

/-- Counterexample for C5: an image fan-out over two characters issues
two balance-guard checks (one inside each delegation), not exactly one
up-front check. -/
theorem C5_cex :
    balanceChecks
        ((imageFanOutSpawns sampleStep [[("name", "A")], [("name", "B")]]
              sampleWorld).map Prod.snd).flatten = 2 ∧
    ¬ (balanceChecks
        ((imageFanOutSpawns sampleStep [[("name", "A")], [("name", "B")]]
              sampleWorld).map Prod.snd).flatten = 1) := by
  constructor
  · rfl
  · intro h
    rw [show balanceChecks
        ((imageFanOutSpawns sampleStep [[("name", "A")], [("name", "B")]]
              sampleWorld).map Prod.snd).flatten = 2 from rfl] at h
    exact absurd h (by decide)

/-- C5 (amended): the video fan-out handler issues exactly one
balance-guard check, ahead of every delegation, and returns with no
delegation started if the guard fails; but its required-credits argument
is the `length` property of the decoded characters *object* — which is
`undefined` whenever the JSON carried no literal "length" key, making
the shortfall comparison false, so the guard never orders a top-up and
always passes.  The image fan-out handler issues no up-front check at
all: each of its N delegations runs its own one-credit check, and a
delegation whose check fails resolves with an empty array instead of
aborting the step. -/
theorem C5_fan_out_balance_checks (w : World) (step : Step)
    (characters : List (String × Js))
    (chars : List (List (String × String))) :
    (∃ pre post, (videoFanOutStart step characters w).1 = pre ++ post ∧
      balanceChecks pre = 1 ∧ createTaskCalls pre = 0 ∧
      balanceChecks post = 0 ∧
      Event.balanceCheck VIDEO_GENERATOR_PLAN_DID
        (jsLengthProp (Js.obj characters)) ∈ pre) ∧
    ((ensureSufficientBalance VIDEO_GENERATOR_PLAN_DID step
          (jsLengthProp (Js.obj characters)) w).1 = false →
      createTaskCalls (videoFanOutStart step characters w).1 = 0 ∧
      (videoFanOutStart step characters w).2 = []) ∧
    (characters.find? (fun p => p.1 = "length") = none →
      jsLengthProp (Js.obj characters) = Js.undef ∧
      orderPlanCalls
        (ensureSufficientBalance VIDEO_GENERATOR_PLAN_DID step
          (jsLengthProp (Js.obj characters)) w).2 = 0 ∧
      (ensureSufficientBalance VIDEO_GENERATOR_PLAN_DID step
          (jsLengthProp (Js.obj characters)) w).1 = true) ∧
    (imageFanOutSpawns step chars w).length = chars.length ∧
    (∀ s ∈ imageFanOutSpawns step chars w,
      balanceChecks s.2 = 1 ∧
      Event.balanceCheck IMAGE_GENERATOR_PLAN_DID (Js.num 1) ∈ s.2) ∧
    balanceChecks
        ((imageFanOutSpawns step chars w).map Prod.snd).flatten =
      chars.length ∧
    ((ensureSufficientBalance IMAGE_GENERATOR_PLAN_DID step (Js.num 1) w).1 =
        false →
      ∀ s ∈ imageFanOutSpawns step chars w,
        s.1 = SpawnOutcome.fulfilled (Js.arr [])) := by
  obtain ⟨hc, hct, rest, hrest⟩ := guard_trace VIDEO_GENERATOR_PLAN_DID step
    (jsLengthProp (Js.obj characters)) w
  refine ⟨?_, ?_, ?_, ?_, ?_, ?_, ?_⟩
  · unfold videoFanOutStart
    dsimp only
    split
    · refine ⟨(ensureSufficientBalance VIDEO_GENERATOR_PLAN_DID step
        (jsLengthProp (Js.obj characters)) w).2, [], by simp, hc, hct, rfl, ?_⟩
      rw [hrest]
      exact List.mem_cons_self _ _
    · refine ⟨(ensureSufficientBalance VIDEO_GENERATOR_PLAN_DID step
        (jsLengthProp (Js.obj characters)) w).2, _, rfl, hc, hct, ?_, ?_⟩
      · exact balanceChecks_flatten_zero _ (by
          intro l hl
          simp only [List.mem_map] at hl
          obtain ⟨pr, ⟨p, hp, rfl⟩, rfl⟩ := hl
          exact (videoSpawn_no_guard step p w).1)
      · rw [hrest]
        exact List.mem_cons_self _ _
  · intro hf
    unfold videoFanOutStart
    dsimp only
    rw [if_pos hf]
    exact ⟨hct, rfl⟩
  · intro hnone
    have hlen : jsLengthProp (Js.obj characters) = Js.undef := by
      simp [jsLengthProp, hnone]
    refine ⟨hlen, ?_, ?_⟩
    · rw [hlen]
      unfold ensureSufficientBalance
      simp [jsLt, orderPlanCalls]
    · rw [hlen]
      unfold ensureSufficientBalance
      simp [jsLt]
  · simp [imageFanOutSpawns]
  · intro s hs
    simp only [imageFanOutSpawns, List.mem_map] at hs
    obtain ⟨c, hc', rfl⟩ := hs
    exact ⟨(imageSpawn_guard step (generateTextToImagePrompt c) w).1,
      (imageSpawn_guard step (generateTextToImagePrompt c) w).2.1⟩
  · rw [balanceChecks_flatten_ones, List.length_map, imageFanOutSpawns,
      List.length_map]
    intro l hl
    simp only [List.mem_map] at hl
    obtain ⟨s, hs, rfl⟩ := hl
    simp only [imageFanOutSpawns, List.mem_map] at hs
    obtain ⟨c, hc', rfl⟩ := hs
    exact (imageSpawn_guard step (generateTextToImagePrompt c) w).1
  · intro hf s hs
    simp only [imageFanOutSpawns, List.mem_map] at hs
    obtain ⟨c, hc', rfl⟩ := hs
    exact (imageSpawn_guard step (generateTextToImagePrompt c) w).2.2 hf

/-- Witness for C5 at concrete inputs: a characters object without a
"length" key makes the video guard's required credits `undefined`, the
guard passes with no top-up, and for the failing-balance image world
every delegation of a two-character fan-out resolves empty after its own
single-credit check. -/
theorem C5_fan_out_balance_checks_witness :
    jsLengthProp (Js.obj [("prompts", Js.arr [Js.str "p1", Js.str "p2"])]) =
      Js.undef ∧
    (ensureSufficientBalance VIDEO_GENERATOR_PLAN_DID sampleStep
        (jsLengthProp (Js.obj [("prompts", Js.arr [Js.str "p1", Js.str "p2"])]))
        wPoorFail).1 = true ∧
    balanceChecks
        ((imageFanOutSpawns sampleStep [[("name", "A")], [("name", "B")]]
              wPoorFail).map Prod.snd).flatten = 2 ∧
    (∀ s ∈ imageFanOutSpawns sampleStep [[("name", "A")], [("name", "B")]]
        wPoorFail, s.1 = SpawnOutcome.fulfilled (Js.arr [])) := by
  have h := C5_fan_out_balance_checks wPoorFail sampleStep
    [("prompts", Js.arr [Js.str "p1", Js.str "p2"])]
    [[("name", "A")], [("name", "B")]]
  have h3 := h.2.2.1 rfl
  refine ⟨h3.1, h3.2.2, ?_, h.2.2.2.2.2.2 (by decide)⟩
  rw [h.2.2.2.2.2.1]
  rfl

/-- An entry string "key: value" always contains a colon, so it is
never equal to the literal "name" — the comparison the filter in
`generateTextToImagePrompt` performs. -/
theorem entryString_ne_name (kv : String × String) :
    entryString kv ≠ "name" := by
  intro h
  have hmem : ':' ∈ (entryString kv).data := by
    simp only [entryString, String.data_append, List.mem_append]
    exact Or.inl (Or.inr (by decide))
  rw [h] at hmem
  exact absurd hmem (by decide)

/-- The replace model is the identity on comma-free inputs (the regex
needs a ',' to start a match). -/
theorem replCCFuel_no_comma (f : Nat) (cs : List Char) (h : ',' ∉ cs) :
    replCCFuel f cs = cs := by
  induction f generalizing cs with
  | zero => rfl
  | succ f ih =>
      cases cs with
      | nil => rfl
      | cons c rest =>
          have hc : c ≠ ',' := fun hh => h (hh ▸ List.mem_cons_self c rest)
          simp only [replCCFuel]
          rw [if_neg hc, ih rest (fun hm => h (List.mem_cons_of_mem c hm))]

/-- Reconstruction of a string from its character data. -/
theorem stringMkData (s : String) : String.mk s.data = s := by
  cases s
  rfl

/-- Counterexample for C10: for the two-attribute character
(name: Bob, age: 3) the returned prompt is "name: Bob, 3": the final
replace collapses ", age:" away, so the result does not include the
key-value pair "age: 3" — the claim that the returned string includes
every key-value pair of the object is false. -/
theorem C10_cex :
    generateTextToImagePrompt [("name", "Bob"), ("age", "3")] =
      "name: Bob, 3" ∧
    ¬ ("age: 3".data <:+:
        (generateTextToImagePrompt [("name", "Bob"), ("age", "3")]).data) := by
  constructor
  · decide
  · rw [show generateTextToImagePrompt [("name", "Bob"), ("age", "3")] =
      "name: Bob, 3" from by decide]
    decide

/-- C10 (amended): the filter intended to drop the name entry never
removes any entry — it compares each already-joined "key: value" string
(which always contains a colon) against the literal "name", so the
joined string passed to the final replace contains every key-value pair
including the name attribute; but the final `replace(/,.*:/g, ",")`
collapses the text from the first comma through the last colon, so only
for a character with a single comma-free attribute is the returned
string the full "key: value" rendering of the object. -/
theorem C10_prompt_filter_never_drops :
    (∀ character : List (String × String),
      (character.map entryString).filter (fun e => e ≠ "name") =
        character.map entryString) ∧
    (∀ k v : String, ',' ∉ k.data → ',' ∉ v.data →
      generateTextToImagePrompt [(k, v)] = k ++ ": " ++ v) := by
  constructor
  · intro character
    rw [List.filter_eq_self]
    intro a ha
    obtain ⟨kv, hkv, rfl⟩ := List.mem_map.mp ha
    simpa using entryString_ne_name kv
  · intro k v hk hv
    have hne := entryString_ne_name (k, v)
    have hnc : ',' ∉ (entryString (k, v)).data := by
      simp only [entryString, String.data_append, List.mem_append]
      push_neg
      exact ⟨⟨hk, by decide⟩, hv⟩
    have hfilter :
        (([(k, v)].map entryString).filter (fun e => e ≠ "name")) =
          [entryString (k, v)] := by
      simp [hne]
    unfold generateTextToImagePrompt
    rw [hfilter,
      show String.intercalate ", " [entryString (k, v)] =
        entryString (k, v) from rfl]
    unfold replCommaColon
    rw [replCCFuel_no_comma _ _ hnc, stringMkData]
    rfl

/-- Witness for C10 at concrete inputs: the filter keeps both entries of
(name: Bob, age: 3), and the single-attribute character (name: Bob)
renders in full, name pair included. -/
theorem C10_prompt_filter_never_drops_witness :
    ([("name", "Bob"), ("age", "3")].map entryString).filter
        (fun e => e ≠ "name") =
      ["name: Bob", "age: 3"] ∧
    generateTextToImagePrompt [("name", "Bob")] = "name: Bob" := by
  constructor
  · rw [(C10_prompt_filter_never_drops).1 [("name", "Bob"), ("age", "3")]]
    decide
  · rw [(C10_prompt_filter_never_drops).2 "name" "Bob" (by decide) (by decide)]
    decide
